import Mathlib

/-!
Verification development for the Codot bridge (MCP server + Godot WebSocket
client).  The definitions below are a shallow embedding of the Python sources:

* `mcp-server/codot/commands.py` — the static command registry
  (`CommandDefinition`, `COMMANDS`, `DISABLED_COMMANDS`);
* `mcp-server/codot/server.py` — the MCP gateway (`list_tools`,
  `CodotServer._handle_tool_call`);
* `mcp-src/codot/godot_client.py` — the WebSocket client (`GodotClient`:
  `connect`, `disconnect`, `send_command`, `_handle_message`, `on_event`,
  `_emit_event`).

Pure data is translated directly; stateful code is translated as explicit
state passing over a `ClientState` record; the effectful steps of the gateway
are recorded in an explicit `Action` trace.
-/

/-- Character-level model of Python's `s.startswith(p)` (Python strings are
sequences of code points, exactly `String.data` here). -/
def pyStartsWith (s p : String) : Bool := s.data.take p.data.length == p.data

/-- Character-level model of Python's slice `s[n:]`. -/
def pyDrop (s : String) (n : Nat) : String := ⟨s.data.drop n⟩

/-- Descriptor of one registered command, from the `CommandDefinition`
dataclass in commands.py.  `godot_command` is the optional alternate wire
name ("If empty, the dictionary key is used as the command"); `enabled`
gates exposure as an MCP tool; `required` is the `required` list of the
descriptor's JSON `input_schema`.  The prose `description` and the
per-parameter schema details are inert data and are elided. -/
structure CommandDefinition where
  godot_command : String := ""
  enabled : Bool := true
  required : List String := []
deriving DecidableEq, Repr

/-- First-match association-list lookup, the model of Python dict indexing
and of the membership test `cmd_name in COMMANDS` (dict keys are unique). -/
def lookupCmd : List (String × CommandDefinition) → String → Option CommandDefinition
  | [], _ => none
  | (k, d) :: rest, key => if key = k then some d else lookupCmd rest key

/-- Suppression set from commands.py (`DISABLED_COMMANDS`): command names hidden from the default MCP tool list. -/
def DISABLED_COMMANDS : List String := [
  "list_animations",
  "play_animation",
  "stop_animation",
  "create_animation",
  "add_animation_track",
  "add_animation_keyframe",
  "preview_animation",
  "list_audio_buses",
  "set_audio_bus_volume",
  "set_audio_bus_mute",
  "load_resource",
  "get_resource_info",
  "save_resource",
  "duplicate_resource",
  "set_resource_properties",
  "list_resource_types",
  "get_import_settings",
  "set_import_settings",
  "get_resource_dependencies",
  "get_editor_theme",
  "get_editor_layout",
  "get_editor_viewport_info",
  "list_event_types",
  "subscribe",
  "unsubscribe",
  "get_subscriptions",
  "poll_events",
  "unsubscribe_all",
  "get_subscription_stats",
  "get_profiler_data",
  "get_orphan_nodes",
  "get_object_stats",
  "get_stack_info",
  "get_scene_diff",
  "get_breakpoints",
  "set_breakpoint",
  "clear_breakpoints",
  "add_input_action",
  "remove_input_action",
  "add_input_event_key",
  "add_input_event_mouse",
  "add_input_event_joypad_button",
  "add_input_event_joypad_axis",
  "clear_input_action_events",
  "get_autoload",
  "add_autoload",
  "remove_autoload",
  "rename_autoload",
  "set_autoload_path",
  "reorder_autoloads",
  "list_node_signals",
  "emit_signal",
  "list_node_methods",
  "get_nodes_in_group",
  "add_node_to_group",
  "remove_node_from_group",
  "make_node_local",
  "get_node_hierarchy_info",
  "batch_commands",
  "bulk_set_properties",
  "create_complete_scene",
  "create_scene_with_script",
  "find_file",
  "find_resources_by_type",
  "search_in_files",
  "find_nodes_by_script",
  "find_broken_references",
  "get_editor_settings",
  "get_unsaved_changes",
  "get_recent_files",
  "mark_modified",
  "enable_plugin",
  "disable_plugin",
  "reload_project"
]

/-- Registry slice 1 of the `COMMANDS` table of commands.py (entries in source order; split into slices only to keep list-literal elaboration linear). -/
def COMMANDS_slice1 : List (String × CommandDefinition) := [
  ("ping", {}),
  ("get_status", {}),
  ("play", { godot_command := "play" }),
  ("play_current", { godot_command := "play_current" }),
  ("play_custom_scene", { required := ["path"] }),
  ("stop", { godot_command := "stop" }),
  ("is_playing", {}),
  ("pause_game", {}),
  ("resume_game", {}),
  ("get_debug_output", {}),
  ("clear_debug_log", {}),
  ("get_debugger_status", {}),
  ("get_editor_log", {}),
  ("get_scene_tree", {}),
  ("get_node_info", { required := ["path"] }),
  ("get_node_properties", { required := ["path"] }),
  ("get_project_files", {}),
  ("read_file", { required := ["path"] }),
  ("write_file", { required := ["path", "content"] }),
  ("file_exists", { required := ["path"] }),
  ("create_directory", { required := ["path"] }),
  ("delete_file", { required := ["path"] }),
  ("delete_directory", { required := ["path"] }),
  ("rename_file", { required := ["from_path", "to_path"] }),
  ("copy_file", { required := ["from_path", "to_path"] }),
  ("get_file_info", { required := ["path"] }),
  ("find_file", { required := ["pattern"] }),
  ("find_resources_by_type", { required := ["type"] })
]

/-- Registry slice 2 of the `COMMANDS` table of commands.py (entries in source order; split into slices only to keep list-literal elaboration linear). -/
def COMMANDS_slice2 : List (String × CommandDefinition) := [
  ("search_in_files", { required := ["query"] }),
  ("find_nodes_by_script", { required := ["script_path"] }),
  ("open_scene", { required := ["path"] }),
  ("save_scene", {}),
  ("save_all_scenes", {}),
  ("get_open_scenes", {}),
  ("get_selected_nodes", {}),
  ("select_node", { required := ["path"] }),
  ("get_editor_settings", {}),
  ("get_editor_state", {}),
  ("get_unsaved_changes", {}),
  ("get_script_errors", {}),
  ("open_script", { required := ["path"] }),
  ("get_breakpoints", {}),
  ("set_breakpoint", { required := ["path", "line"] }),
  ("clear_breakpoints", {}),
  ("get_project_settings", {}),
  ("list_resources", {}),
  ("get_open_dialogs", {}),
  ("dismiss_dialog", {}),
  ("refresh_filesystem", {}),
  ("reimport_resource", { required := ["path"] }),
  ("mark_modified", { required := ["path"] }),
  ("get_current_screen", {}),
  ("set_current_screen", { required := ["screen"] }),
  ("get_project_config", {}),
  ("set_project_config", { required := ["key", "value"] }),
  ("undo", {})
]

/-- Registry slice 3 of the `COMMANDS` table of commands.py (entries in source order; split into slices only to keep list-literal elaboration linear). -/
def COMMANDS_slice3 : List (String × CommandDefinition) := [
  ("redo", {}),
  ("get_undo_redo_status", {}),
  ("get_recent_files", {}),
  ("create_node", { required := ["type"] }),
  ("delete_node", { required := ["path"] }),
  ("set_node_property", { required := ["path", "property", "value"] }),
  ("rename_node", { required := ["path", "name"] }),
  ("move_node", { required := ["path", "new_parent"] }),
  ("duplicate_node", { required := ["path"] }),
  ("instantiate_scene", { required := ["scene"] }),
  ("get_node_script", { required := ["path"] }),
  ("attach_script", { required := ["path", "script"] }),
  ("detach_script", { required := ["path"] }),
  ("make_node_local", { required := ["path"] }),
  ("get_node_hierarchy_info", { required := ["path"] }),
  ("create_scene", { required := ["path"] }),
  ("new_inherited_scene", { required := ["base_scene", "path"] }),
  ("duplicate_scene", { required := ["source_path", "dest_path"] }),
  ("get_scene_dependencies", { required := ["path"] }),
  ("reload_current_scene", {}),
  ("close_scene", {}),
  ("simulate_key", { required := ["key"] }),
  ("simulate_mouse_button", {}),
  ("simulate_mouse_motion", {}),
  ("simulate_action", { required := ["action"] }),
  ("get_input_actions", {}),
  ("get_input_action", { required := ["action"] }),
  ("add_input_action", { required := ["action"] })
]

/-- Registry slice 4 of the `COMMANDS` table of commands.py (entries in source order; split into slices only to keep list-literal elaboration linear). -/
def COMMANDS_slice4 : List (String × CommandDefinition) := [
  ("remove_input_action", { required := ["action"] }),
  ("add_input_event_key", { required := ["action", "key"] }),
  ("add_input_event_mouse", { required := ["action", "button"] }),
  ("add_input_event_joypad_button", { required := ["action", "button"] }),
  ("add_input_event_joypad_axis", { required := ["action", "axis"] }),
  ("clear_input_action_events", { required := ["action"] }),
  ("gut_check_installed", {}),
  ("gut_run_all", {}),
  ("gut_run_script", { required := ["script"] }),
  ("gut_run_test", { required := ["script", "test_name"] }),
  ("gut_get_results", {}),
  ("gut_list_tests", {}),
  ("gut_create_test", { required := ["path"] }),
  ("list_node_signals", { required := ["path"] }),
  ("emit_signal", { required := ["path", "signal"] }),
  ("call_method", { required := ["path", "method"] }),
  ("list_node_methods", { required := ["path"] }),
  ("get_nodes_in_group", { required := ["group"] }),
  ("add_node_to_group", { required := ["path", "group"] }),
  ("remove_node_from_group", { required := ["path", "group"] }),
  ("load_resource", { required := ["path"] }),
  ("get_resource_info", { required := ["path"] }),
  ("list_animations", { required := ["path"] }),
  ("play_animation", { required := ["path", "animation"] }),
  ("stop_animation", { required := ["path"] }),
  ("list_audio_buses", {}),
  ("set_audio_bus_volume", {}),
  ("set_audio_bus_mute", {})
]

/-- Registry slice 5 of the `COMMANDS` table of commands.py (entries in source order; split into slices only to keep list-literal elaboration linear). -/
def COMMANDS_slice5 : List (String × CommandDefinition) := [
  ("create_resource", { required := ["type", "path"] }),
  ("save_resource", { required := ["path"] }),
  ("duplicate_resource", { required := ["source_path", "dest_path"] }),
  ("set_resource_properties", { required := ["path", "properties"] }),
  ("list_resource_types", {}),
  ("get_performance_info", {}),
  ("get_memory_info", {}),
  ("print_to_console", { required := ["message"] }),
  ("get_recent_errors", {}),
  ("get_autoloads", {}),
  ("get_autoload", { required := ["name"] }),
  ("add_autoload", { required := ["name", "path"] }),
  ("remove_autoload", { required := ["name"] }),
  ("rename_autoload", { required := ["old_name", "new_name"] }),
  ("set_autoload_path", { required := ["name", "path"] }),
  ("reorder_autoloads", { required := ["order"] }),
  ("enable_plugin", { required := ["name"] }),
  ("disable_plugin", { required := ["name"] }),
  ("get_plugins", {}),
  ("reload_project", {}),
  ("run_and_capture", {}),
  ("wait_for_output", {}),
  ("ping_game", {}),
  ("get_game_state", {}),
  ("take_screenshot", {}),
  ("gut_run_and_wait", {}),
  ("gut_get_summary", {}),
  ("batch_commands", { required := ["commands"] })
]

/-- Registry slice 6 of the `COMMANDS` table of commands.py (entries in source order; split into slices only to keep list-literal elaboration linear). -/
def COMMANDS_slice6 : List (String × CommandDefinition) := [
  ("bulk_set_properties", { required := ["operations"] }),
  ("create_complete_scene", { required := ["scene_path"] }),
  ("create_scene_with_script", { required := ["scene_path", "script_content"] }),
  ("list_event_types", {}),
  ("subscribe", { required := ["client_id", "event_type"] }),
  ("unsubscribe", { required := ["subscription_id"] }),
  ("get_subscriptions", { required := ["client_id"] }),
  ("poll_events", { required := ["client_id"] }),
  ("unsubscribe_all", { required := ["client_id"] }),
  ("get_subscription_stats", {}),
  ("get_import_settings", { required := ["path"] }),
  ("set_import_settings", { required := ["path", "settings"] }),
  ("get_resource_dependencies", { required := ["path"] }),
  ("find_broken_references", {}),
  ("get_editor_theme", {}),
  ("get_editor_layout", {}),
  ("get_editor_viewport_info", {}),
  ("create_animation", { required := ["node_path", "animation_name"] }),
  ("add_animation_track", { required := ["node_path", "animation_name", "track_type", "track_path"] }),
  ("add_animation_keyframe", { required := ["node_path", "animation_name", "track_index", "time", "value"] }),
  ("preview_animation", { required := ["node_path", "animation_name"] }),
  ("get_scene_diff", {}),
  ("get_profiler_data", {}),
  ("get_orphan_nodes", {}),
  ("get_object_stats", {}),
  ("get_stack_info", {})
]

/-- Registry from commands.py (`COMMANDS`): every registered command, keyed by name, in source order.  Each entry records the dictionary key together with its descriptor fields `godot_command`, `enabled`, and the `required` list of its `input_schema`; the prose `description` and the per-parameter type details of `input_schema` are inert data never consulted by the modelled control flow and are elided. -/
def COMMANDS : List (String × CommandDefinition) :=
  COMMANDS_slice1 ++ COMMANDS_slice2 ++ COMMANDS_slice3 ++ COMMANDS_slice4 ++ COMMANDS_slice5 ++ COMMANDS_slice6

/-- Names of the three connection-management meta-tools handled before the
command dispatch in `CodotServer._handle_tool_call` (server.py). -/
def metaToolNames : List String :=
  ["godot_connection_status", "godot_connect", "godot_disconnect"]

/-- Tool names advertised by `list_tools` (server.py lines 89-161): the three
meta-tools, then one `godot_`-prefixed tool per registry entry that survives
the two skips `if not ENABLE_ALL_TOOLS and cmd_name in DISABLED_COMMANDS:
continue` and `if not cmd_def.enabled: continue`.  The process-wide
`CODOT_ENABLE_ALL_TOOLS` environment flag is threaded in as `enableAll`. -/
def listToolNames (enableAll : Bool) : List String :=
  metaToolNames ++
    ((COMMANDS.filter fun p =>
        decide ((enableAll = true ∨ p.1 ∉ DISABLED_COMMANDS) ∧ p.2.enabled = true)).map
      fun p => "godot_" ++ p.1)

/-- Observable effects of one `_handle_tool_call` invocation: the registry
membership test `cmd_name not in COMMANDS`, the auto-`connect()` attempt,
the `send_command` delegation, and the `disconnect()` call. -/
inductive GatewayAction where
  | registryLookup (cmd : String)
  | connectAttempt
  | sendCmd (cmd : String) (args : List String)
  | disconnectOp
deriving DecidableEq, Repr

/-- Value returned by `_handle_tool_call`.  `statusResult` is the
connection-status dict; `successMsg` the success dicts of the connect and
disconnect branches; `errorResult code` a `{"success": False, "error":
{"code": code, ...}}` dict (messages elided); `forwardedCall cmd args`
means the verbatim response of `send_command(cmd, args)` is returned. -/
inductive ToolOutcome where
  | statusResult (connected : Bool)
  | successMsg
  | errorResult (code : String)
  | forwardedCall (cmd : String) (args : List String)
deriving DecidableEq, Repr

/-- Shallow embedding of `CodotServer._handle_tool_call` (server.py lines
194-286).  `args` is the list of supplied argument names (argument values
are never inspected by this layer); `connected` is
`self.godot_client.is_connected`; `connectOk` is the outcome the external
`GodotClient.connect()` attempt would have.  Returns the outcome together
with the trace of effects in execution order. -/
def handleToolCall (name : String) (args : List String) (connected : Bool)
    (connectOk : Bool) : ToolOutcome × List GatewayAction :=
  if name = "godot_connection_status" then
    (.statusResult connected, [])
  else if name = "godot_connect" then
    if connectOk then (.successMsg, [.connectAttempt])
    else (.errorResult "CONNECTION_FAILED", [.connectAttempt])
  else if name = "godot_disconnect" then
    (.successMsg, [.disconnectOp])
  else if pyStartsWith name "godot_" then
    let cmd := pyDrop name 6
    match lookupCmd COMMANDS cmd with
    | none => (.errorResult "UNKNOWN_COMMAND", [.registryLookup cmd])
    | some _ =>
      if connected then
        (.forwardedCall cmd args, [.registryLookup cmd, .sendCmd cmd args])
      else if connectOk then
        (.forwardedCall cmd args,
          [.registryLookup cmd, .connectAttempt, .sendCmd cmd args])
      else
        (.errorResult "NOT_CONNECTED", [.registryLookup cmd, .connectAttempt])
  else
    (.errorResult "UNKNOWN_TOOL", [])

/-- Wire name actually sent by the gateway: server.py line 277 passes the
registry key `cmd_name` itself to `send_command`. -/
def sentWireName (k : String) : String := k

/-- Wire-name rule as the spec words it (section 4.1): the remote alias
`godot_command` when set (non-empty), the registry key otherwise. -/
def specWireName (k : String) (d : CommandDefinition) : String :=
  if d.godot_command = "" then k else d.godot_command

/-- Error codes the spec lists as surfaced to callers (spec section 6). -/
def specSurfacedErrorCodes : List String :=
  ["NOT_CONNECTED", "CONNECTION_FAILED", "TIMEOUT", "CONNECTION_CLOSED",
   "UNKNOWN_COMMAND", "SEND_ERROR"]

/-- Decoded JSON frame received from (or sent to) the host, as consumed by
`GodotClient._handle_message`.  `hasIdKey` models the key-presence test
`"id" in data`; `idVal` models `data.get("id")` (with `none` for an absent
or null id); `typ` models `data.get("type")`; `dataField` is an opaque
token standing for the `data.get("data", {})` payload, whose contents this
layer never inspects. -/
structure Frame where
  hasIdKey : Bool := false
  idVal : Option String := none
  typ : Option String := none
  dataField : Nat := 0
deriving DecidableEq, Repr

/-- State of one `asyncio.Future` held by a caller of `send_command`:
unresolved, resolved with a response frame by `future.set_result(data)`, or
cancelled by `future.cancel()`. -/
inductive FutureState where
  | pending
  | resolvedF (f : Frame)
  | cancelledF
deriving DecidableEq, Repr

/-- Model of `future.done()`: true once resolved or cancelled. -/
def FutureState.isDone : FutureState → Bool
  | .pending => false
  | _ => true

/-- First-match lookup in the future store (request ids are unique,
`str(uuid.uuid4())` per call). -/
def lookupFut : List (String × FutureState) → String → Option FutureState
  | [], _ => none
  | (k, f) :: rest, r => if r = k then some f else lookupFut rest r

/-- Replace the value stored under a request id (no-op when the id is
absent), the model of `future.set_result` on the future the dict held. -/
def setFut : List (String × FutureState) → String → FutureState → List (String × FutureState)
  | [], _, _ => []
  | (k, f) :: rest, r, v =>
    if r = k then (k, v) :: rest else (k, f) :: setFut rest r v

/-- Remove the first entry with the given key, the model of
`self._pending_requests.pop(request_id)` on the key set. -/
def removeKey : List String → String → List String
  | [], _ => []
  | k :: rest, r => if r = k then rest else k :: removeKey rest r

/-- State of one `GodotClient` session.  `connected` models
`is_connected` (`websocket is not None and websocket.open`);
`receiveTasks` counts live background `_receive_loop` tasks; `pendingKeys`
is the key set of `self._pending_requests`; `futures` is the store of every
future created for this session, keyed by request id (callers keep their
reference even after the key is popped from the dict). -/
structure ClientState where
  connected : Bool := false
  receiveTasks : Nat := 0
  pendingKeys : List String := []
  futures : List (String × FutureState) := []
deriving DecidableEq, Repr

/-- Result of one external connection attempt, the distinguished failure
reasons of `GodotClient.connect` (lines 95-115). -/
inductive ConnectOutcome where
  | success
  | timedOut
  | refused
  | otherError
deriving DecidableEq, Repr

/-- Shallow embedding of `GodotClient.connect` (godot_client.py lines
82-115): a no-op returning `True` when already connected; otherwise the
websocket handshake either succeeds (spawning exactly one background
receive task) or fails with `False`. -/
def GodotClient.connect (st : ClientState) (o : ConnectOutcome) : Bool × ClientState :=
  if st.connected then (true, st)
  else
    match o with
    | .success => (true, { st with connected := true, receiveTasks := st.receiveTasks + 1 })
    | _ => (false, st)

/-- Cancellation sweep of `disconnect` (godot_client.py lines 136-140):
`for future in self._pending_requests.values(): if not future.done():
future.cancel()`, expressed on the future store — an entry is cancelled
exactly when its key is still in the pending dict and its future is not
yet done. -/
def cancelSweep (ks : List String) (l : List (String × FutureState)) :
    List (String × FutureState) :=
  l.map fun p =>
    if p.1 ∈ ks ∧ p.2 = FutureState.pending then (p.1, FutureState.cancelledF) else p

/-- Shallow embedding of `GodotClient.disconnect` (godot_client.py lines
117-142): cancel and await the receive task, close the websocket, then run
the cancellation sweep over the pending futures, and clear the dict. -/
def GodotClient.disconnect (st : ClientState) : ClientState :=
  { st with
    connected := false
    receiveTasks := 0
    pendingKeys := []
    futures := cancelSweep st.pendingKeys st.futures }

/-- Event dispatches of the `elif` chain of `_handle_message`
(godot_client.py lines 264-274): a known `type` is forwarded to
`_emit_event` with its payload; an unknown `type` falls off the chain and
the frame is dropped. -/
def eventEmits (msgType : String) (fr : Frame) : List (String × Nat) :=
  if msgType = "log_event" then [("log", fr.dataField)]
  else if msgType = "game_connected" then [("game_connected", fr.dataField)]
  else if msgType = "game_disconnected" then [("game_disconnected", fr.dataField)]
  else []

/-- Shallow embedding of `GodotClient._handle_message` (godot_client.py
lines 243-274), one step of the background receive loop on a decoded
frame.  The first branch is taken when `msg_type == "response" or "id" in
data`; inside it the slot is popped and its future resolved only when the
id is truthy, currently pending in the dict, and the future is not yet
done.  Returns the new state together with the list of
`_emit_event(event_key, payload)` dispatches the step performs.  The
function is total: no branch raises. -/
def handleMessage (st : ClientState) (fr : Frame) : ClientState × List (String × Nat) :=
  let msgType := fr.typ.getD "response"
  if msgType = "response" ∨ fr.hasIdKey = true then
    match fr.idVal with
    | some r =>
      if r ≠ "" ∧ r ∈ st.pendingKeys then
        let fut := lookupFut st.futures r
        ({ st with
           pendingKeys := removeKey st.pendingKeys r
           futures :=
             if fut = some FutureState.pending then setFut st.futures r (FutureState.resolvedF fr)
             else st.futures }, [])
      else (st, [])
    | none => (st, [])
  else
    (st, eventEmits msgType fr)

/-- Fold of `handleMessage` over a sequence of inbound frames (the
successive iterations of `_receive_loop`). -/
def applyFrames (st : ClientState) (frames : List Frame) : ClientState :=
  frames.foldl (fun s f => (handleMessage s f).1) st

/-- Registration step of `send_command` (godot_client.py lines 170-179):
generate a fresh id `r`, create a future, and store it under `r` in
`_pending_requests`. -/
def sendCommandRegister (st : ClientState) (r : String) : ClientState :=
  { st with
    pendingKeys := r :: st.pendingKeys
    futures := (r, FutureState.pending) :: st.futures }

/-- Value a `send_command` caller ends up with.  `response f` is the frame
returned verbatim after `await asyncio.wait_for(future, ...)`;
`localError code` is one of the locally built `{"success": False,
"error": {"code": code, ...}}` dicts; `cancelledError` records that
`asyncio.CancelledError` escapes `send_command` (it is a `BaseException`,
caught by none of the `except` clauses at lines 190-217); `stillWaiting`
means the future is not yet settled. -/
inductive CallResult where
  | response (f : Frame)
  | localError (code : String)
  | cancelledError
  | stillWaiting
deriving DecidableEq, Repr

/-- Outcome of the caller's `await asyncio.wait_for(future, timeout)` as a
function of the final state of its future. -/
def awaitFutureResult : FutureState → CallResult
  | .resolvedF f => .response f
  | .cancelledF => .cancelledError
  | .pending => .stillWaiting

/-- Dict built by the `except websockets.exceptions.ConnectionClosed`
branch of `send_command` (godot_client.py lines 199-208). -/
def connectionClosedResult : CallResult := .localError "CONNECTION_CLOSED"

/-- Behaviour of one registered event handler: called on the event payload,
it either returns (`Except.ok`) or raises (`Except.error`), paired with an
identity token so invocation order is observable. -/
def EventHandler : Type := Nat × (Nat → Except String Unit)

/-- Shallow embedding of `GodotClient._emit_event`'s handler loop
(godot_client.py lines 300-319): each handler for the event type is called
in turn inside `try/except`; a raised error is logged (recorded here as
`some e`) and the loop continues.  Totality of this function is the model
of errors never propagating to the dispatcher's caller. -/
def emitEvent : List EventHandler → Nat → List (Nat × Option String)
  | [], _ => []
  | h :: rest, d =>
    (h.1, match h.2 d with | .ok _ => none | .error e => some e) :: emitEvent rest d

/-- First-match lookup among per-event handler lists. -/
def lookupHandlers : List (String × List EventHandler) → String → Option (List EventHandler)
  | [], _ => none
  | (k, hs) :: rest, key => if key = k then some hs else lookupHandlers rest key

/-- Handlers dispatched for a key, the model of
`self._event_handlers.get(event_type, [])` (godot_client.py line 311). -/
def getHandlers (hm : List (String × List EventHandler)) (key : String) : List EventHandler :=
  (lookupHandlers hm key).getD []

/-- Shallow embedding of `GodotClient.on_event` (godot_client.py lines
276-287): create the key's list if absent, then append the handler. -/
def onEvent : List (String × List EventHandler) → String → EventHandler → List (String × List EventHandler)
  | [], key, h => [(key, [h])]
  | (k, hs) :: rest, key, h =>
    if key = k then (k, hs ++ [h]) :: rest else (k, hs) :: onEvent rest key h

/-! Helper lemmas about the association-list operations and the registry
data.  These are shared across the claim theorems below. -/

theorem lookupCmd_mem {l : List (String × CommandDefinition)} {key : String}
    {d : CommandDefinition} (h : lookupCmd l key = some d) : (key, d) ∈ l := by
  induction l with
  | nil => simp [lookupCmd] at h
  | cons p rest ih =>
    obtain ⟨k, v⟩ := p
    by_cases hk : key = k
    · subst hk
      simp [lookupCmd] at h
      simp [h]
    · simp only [lookupCmd, if_neg hk] at h
      exact List.mem_cons_of_mem _ (ih h)

theorem lookupFut_setFut_ne {l : List (String × FutureState)} {k r : String}
    {v : FutureState} (h : r ≠ k) : lookupFut (setFut l k v) r = lookupFut l r := by
  induction l with
  | nil => rfl
  | cons p rest ih =>
    obtain ⟨k0, f0⟩ := p
    by_cases hk : k = k0
    · subst hk
      simp [setFut, lookupFut, if_neg h]
    · simp [setFut, lookupFut, if_neg hk]
      by_cases hr : r = k0
      · simp [if_pos hr]
      · simp [if_neg hr, ih]

theorem lookupFut_setFut_eq {l : List (String × FutureState)} {k : String}
    {v w : FutureState} (h : lookupFut l k = some w) :
    lookupFut (setFut l k v) k = some v := by
  induction l with
  | nil => simp [lookupFut] at h
  | cons p rest ih =>
    obtain ⟨k0, f0⟩ := p
    by_cases hk : k = k0
    · subst hk
      simp [setFut, lookupFut]
    · simp only [lookupFut, if_neg hk] at h
      simp [setFut, lookupFut, if_neg hk, ih h]

theorem stringAppendLeftCancel {s t u : String} (h : s ++ t = s ++ u) : t = u := by
  have hd : (s ++ t).data = (s ++ u).data := by rw [h]
  simp [String.data_append] at hd
  cases t; cases u; simp_all

set_option maxRecDepth 4000 in
/-- Every descriptor in the registry is enabled (`commands.py` never passes
`enabled=False`; the dataclass default is `True`). -/
theorem commands_all_enabled : ∀ p ∈ COMMANDS, p.2.enabled = true := by decide

set_option maxRecDepth 4000 in
/-- Every remote alias in the registry is either unset or literally equal to
its own registry key (`play`, `play_current`, `stop`). -/
theorem commands_alias_eq_key : ∀ p ∈ COMMANDS, specWireName p.1 p.2 = p.1 := by decide

/-- C7: `connect` is idempotent: on a session already connected, calling
`connect` again returns `True` and leaves the state — including the count
of background receive tasks — exactly as it was, so no second receive loop
is spawned (godot_client.py lines 92-93). -/
theorem connect_idempotent (st : ClientState) (o : ConnectOutcome)
    (h : st.connected = true) : GodotClient.connect st o = (true, st) := by
  simp [GodotClient.connect, h]

theorem connect_idempotent_witness :
    ({ connected := true, receiveTasks := 1 : ClientState }).connected = true ∧
    GodotClient.connect { connected := true, receiveTasks := 1 } ConnectOutcome.success =
      (true, { connected := true, receiveTasks := 1 }) :=
  ⟨rfl, connect_idempotent { connected := true, receiveTasks := 1 } ConnectOutcome.success rfl⟩

/-- C9: dispatching an event invokes exactly the handlers registered for
that key, each once, in subscription order, recording a raised error as a
logged entry without stopping the remaining handlers (`emitEvent` is total,
so no handler error propagates to the dispatcher's caller); and `on_event`
appends, so subscription order is list order. -/
theorem emit_event_handlers_in_order :
    (∀ (hs : List EventHandler) (d : Nat),
        emitEvent hs d =
          hs.map fun h => (h.1, match h.2 d with | .ok _ => none | .error e => some e)) ∧
    (∀ (hm : List (String × List EventHandler)) (key : String) (h : EventHandler),
        getHandlers (onEvent hm key h) key = getHandlers hm key ++ [h]) := by
  constructor
  · intro hs d
    induction hs with
    | nil => rfl
    | cons h rest ih => simp [emitEvent, ih]
  · intro hm key h
    induction hm with
    | nil => simp [onEvent, getHandlers, lookupHandlers]
    | cons p rest ih =>
      obtain ⟨k, hs⟩ := p
      by_cases hk : key = k
      · subst hk
        simp [onEvent, getHandlers, lookupHandlers]
      · have ih2 := ih
        simp only [getHandlers] at ih2
        simp [onEvent, if_neg hk, getHandlers, lookupHandlers, ih2]

/-- C10: a tool name without the `godot_` prefix reaches the fallthrough of
`_handle_tool_call` (server.py lines 280-286): the result is the
`UNKNOWN_TOOL` error, produced with no registry lookup, no connect attempt
and no send, and `UNKNOWN_TOOL` is distinct from `UNKNOWN_COMMAND` and from
every error code in the spec's surfaced list. -/
theorem unknown_tool_for_unprefixed (name : String) (args : List String)
    (connected connectOk : Bool) (h : pyStartsWith name "godot_" = false) :
    handleToolCall name args connected connectOk =
      (ToolOutcome.errorResult "UNKNOWN_TOOL", []) ∧
    "UNKNOWN_TOOL" ∉ specSurfacedErrorCodes ∧
    ("UNKNOWN_TOOL" : String) ≠ "UNKNOWN_COMMAND" := by
  have h1 : name ≠ "godot_connection_status" := by
    rintro rfl
    rw [show pyStartsWith "godot_connection_status" "godot_" = true from by decide] at h
    exact Bool.noConfusion h
  have h2 : name ≠ "godot_connect" := by
    rintro rfl
    rw [show pyStartsWith "godot_connect" "godot_" = true from by decide] at h
    exact Bool.noConfusion h
  have h3 : name ≠ "godot_disconnect" := by
    rintro rfl
    rw [show pyStartsWith "godot_disconnect" "godot_" = true from by decide] at h
    exact Bool.noConfusion h
  refine ⟨?_, by decide, by decide⟩
  simp [handleToolCall, h1, h2, h3, h]

theorem unknown_tool_for_unprefixed_witness :
    pyStartsWith "ping" "godot_" = false ∧
    handleToolCall "ping" [] false false = (ToolOutcome.errorResult "UNKNOWN_TOOL", []) :=
  ⟨by decide, (unknown_tool_for_unprefixed "ping" [] false false (by decide)).1⟩

/-- C2: for every registered descriptor, the wire-level command name the
gateway hands to `send_command` (server.py line 277 passes the registry key
itself) agrees with the spec's alias rule `specWireName` — the remote alias
when set, the key otherwise — because every alias present in the registry
equals its own key.  Every `sendCmd` effect of the invocation carries
exactly that wire name and the caller's arguments unchanged, and when the
session is connected the send actually occurs. -/
theorem gateway_wire_name_matches_alias_rule
    (name k : String) (d : CommandDefinition) (args : List String)
    (connected connectOk : Bool)
    (hpre : pyStartsWith name "godot_" = true) (hdrop : pyDrop name 6 = k)
    (hm1 : name ≠ "godot_connection_status") (hm2 : name ≠ "godot_connect")
    (hm3 : name ≠ "godot_disconnect")
    (hlook : lookupCmd COMMANDS k = some d) :
    (∀ w a, GatewayAction.sendCmd w a ∈ (handleToolCall name args connected connectOk).2 →
        w = specWireName k d ∧ a = args) ∧
    (connected = true →
        GatewayAction.sendCmd (specWireName k d) args ∈
          (handleToolCall name args connected connectOk).2) := by
  have halias : specWireName k d = k := commands_alias_eq_key (k, d) (lookupCmd_mem hlook)
  subst hdrop
  rw [halias]
  by_cases hc : connected = true
  · constructor
    · intro w a hwa
      simp [handleToolCall, hm1, hm2, hm3, hpre, hlook, hc] at hwa
      exact ⟨hwa.1, hwa.2⟩
    · intro _
      simp [handleToolCall, hm1, hm2, hm3, hpre, hlook, hc]
  · have hc2 : connected = false := by
      cases connected
      · rfl
      · exact absurd rfl hc
    by_cases hk : connectOk = true
    · constructor
      · intro w a hwa
        simp [handleToolCall, hm1, hm2, hm3, hpre, hlook, hc2, hk] at hwa
        exact ⟨hwa.1, hwa.2⟩
      · intro hcon
        exact absurd hcon hc
    · have hk2 : connectOk = false := by
        cases connectOk
        · rfl
        · exact absurd rfl hk
      constructor
      · intro w a hwa
        simp [handleToolCall, hm1, hm2, hm3, hpre, hlook, hc2, hk2] at hwa
      · intro hcon
        exact absurd hcon hc

theorem gateway_wire_name_witness :
    GatewayAction.sendCmd (specWireName "play" { godot_command := "play" }) ["scene"] ∈
      (handleToolCall "godot_play" ["scene"] true false).2 :=
  (gateway_wire_name_matches_alias_rule "godot_play" "play" { godot_command := "play" }
    ["scene"] true false (by decide) (by decide) (by decide) (by decide) (by decide)
    (by decide)).2 rfl

set_option maxRecDepth 4000 in
/-- Every suppressed name differs from the suffixes of the three meta-tool
names, so suppression never collides with the meta-tools. -/
theorem disabled_not_meta_suffix :
    ∀ x ∈ DISABLED_COMMANDS,
      x ≠ "connection_status" ∧ x ≠ "connect" ∧ x ≠ "disconnect" := by decide

/-- C5: visibility of the tool list (server.py lines 146-159).  With the
`CODOT_ENABLE_ALL_TOOLS` override set, every registered command appears in
the advertised tool list; with it unset, no suppressed name appears and no
descriptor with a false `enabled` flag appears (the latter vacuously, as
the registry ships none). -/
theorem list_tools_visibility :
    (∀ p ∈ COMMANDS, ("godot_" ++ p.1) ∈ listToolNames true) ∧
    (∀ k ∈ DISABLED_COMMANDS, ("godot_" ++ k) ∉ listToolNames false) ∧
    (∀ p ∈ COMMANDS, p.2.enabled = false → ("godot_" ++ p.1) ∉ listToolNames false) := by
  refine ⟨?_, ?_, ?_⟩
  · intro p hp
    have hpred : decide ((true = true ∨ p.1 ∉ DISABLED_COMMANDS) ∧ p.2.enabled = true) = true :=
      decide_eq_true ⟨Or.inl rfl, commands_all_enabled p hp⟩
    exact List.mem_append.mpr
      (Or.inr (List.mem_map_of_mem _ (List.mem_filter.mpr ⟨hp, hpred⟩)))
  · intro k hk hmem
    rcases List.mem_append.mp hmem with hmeta | hmap
    · have hne := disabled_not_meta_suffix k hk
      simp [metaToolNames] at hmeta
      rcases hmeta with h | h | h
      · have e : ("godot_connection_status" : String) = "godot_" ++ "connection_status" := by
          decide
        exact hne.1 (stringAppendLeftCancel (h.trans e))
      · have e : ("godot_connect" : String) = "godot_" ++ "connect" := by decide
        exact hne.2.1 (stringAppendLeftCancel (h.trans e))
      · have e : ("godot_disconnect" : String) = "godot_" ++ "disconnect" := by decide
        exact hne.2.2 (stringAppendLeftCancel (h.trans e))
    · rcases List.mem_map.mp hmap with ⟨p, hpf, heq⟩
      have hkey : p.1 = k := stringAppendLeftCancel heq
      have hpred := of_decide_eq_true (List.mem_filter.mp hpf).2
      rcases hpred.1 with hff | hnotin
      · exact Bool.noConfusion hff
      · rw [hkey] at hnotin
        exact hnotin hk
  · intro p hp hfalse
    have := commands_all_enabled p hp
    rw [hfalse] at this
    exact fun _ => Bool.noConfusion this

theorem list_tools_visibility_witness :
    ("godot_" ++ "ping") ∈ listToolNames true ∧
    ("godot_" ++ "list_animations") ∉ listToolNames false :=
  ⟨list_tools_visibility.1 ("ping", {}) (by decide),
   list_tools_visibility.2.1 "list_animations" (by decide)⟩

set_option maxRecDepth 4000 in
/-- C6 counterexample: the name `connection_status` is absent from the
registry mapping, yet invoking it through the gateway (tool
`godot_connection_status`) is captured by the meta-tool branch and returns
the status report, not the `UNKNOWN_COMMAND` error the claim requires for
every unregistered name. -/
theorem unknown_command_iff_absent_cex :
    lookupCmd COMMANDS "connection_status" = none ∧
    (handleToolCall "godot_connection_status" [] false false).1 =
      ToolOutcome.statusResult false ∧
    (handleToolCall "godot_connection_status" [] false false).1 ≠
      ToolOutcome.errorResult "UNKNOWN_COMMAND" :=
  ⟨by decide, by decide, by decide⟩

/-- C6 (amended): for every invocation that is not one of the three
connection-management meta-tools, the gateway answers `UNKNOWN_COMMAND` if
and only if the name (after the `godot_` marker) is absent from the
registry mapping — the test at server.py line 254 consults only membership,
so a suppressed or disabled descriptor is still resolvable and invocable —
and in the unknown case the only effect produced is the registry membership
test itself: no connect attempt and no send. -/
theorem unknown_command_iff_absent
    (name k : String) (args : List String) (connected connectOk : Bool)
    (hpre : pyStartsWith name "godot_" = true) (hdrop : pyDrop name 6 = k)
    (hm1 : name ≠ "godot_connection_status") (hm2 : name ≠ "godot_connect")
    (hm3 : name ≠ "godot_disconnect") :
    ((handleToolCall name args connected connectOk).1 =
        ToolOutcome.errorResult "UNKNOWN_COMMAND" ↔ lookupCmd COMMANDS k = none) ∧
    (lookupCmd COMMANDS k = none →
        (handleToolCall name args connected connectOk).2 =
          [GatewayAction.registryLookup k]) := by
  subst hdrop
  refine ⟨⟨?_, ?_⟩, ?_⟩
  · intro hres
    cases hl : lookupCmd COMMANDS (pyDrop name 6) with
    | none => rfl
    | some d =>
      cases connected <;> cases connectOk <;>
        simp [handleToolCall, hm1, hm2, hm3, hpre, hl] at hres
  · intro hl
    simp [handleToolCall, hm1, hm2, hm3, hpre, hl]
  · intro hl
    simp [handleToolCall, hm1, hm2, hm3, hpre, hl]

set_option maxRecDepth 4000 in
theorem unknown_command_iff_absent_witness :
    (handleToolCall "godot_nope" [] true true).1 =
      ToolOutcome.errorResult "UNKNOWN_COMMAND" :=
  (unknown_command_iff_absent "godot_nope" "nope" [] true true (by decide) (by decide)
    (by decide) (by decide) (by decide)).1.mpr (by decide)

set_option maxRecDepth 4000 in
/-- C4 counterexample: `play_custom_scene` declares `path` as required, yet
invoking it with no arguments is delegated straight to the host — the trace
shows the registry test followed by the send, with no missing-argument
error produced before delegation (server.py lines 250-278 contain no
required-field check). -/
theorem gateway_required_check_cex :
    lookupCmd COMMANDS "play_custom_scene" = some { required := ["path"] } ∧
    "path" ∉ ([] : List String) ∧
    handleToolCall "godot_play_custom_scene" [] true true =
      (ToolOutcome.forwardedCall "play_custom_scene" [],
       [GatewayAction.registryLookup "play_custom_scene",
        GatewayAction.sendCmd "play_custom_scene" []]) :=
  ⟨by decide, by decide, by decide⟩

/-- C4 (amended): the gateway performs no required-parameter presence
check: every invocation of a registered command on a connected session is
delegated to the correlator with the caller's arguments unchanged,
whatever the descriptor's required set and whatever arguments are missing;
a missing required argument is left for the host to report. -/
theorem gateway_forwards_without_required_check
    (name k : String) (d : CommandDefinition) (args : List String) (connectOk : Bool)
    (hpre : pyStartsWith name "godot_" = true) (hdrop : pyDrop name 6 = k)
    (hm1 : name ≠ "godot_connection_status") (hm2 : name ≠ "godot_connect")
    (hm3 : name ≠ "godot_disconnect")
    (hlook : lookupCmd COMMANDS k = some d) :
    handleToolCall name args true connectOk =
      (ToolOutcome.forwardedCall k args,
       [GatewayAction.registryLookup k, GatewayAction.sendCmd k args]) := by
  subst hdrop
  simp [handleToolCall, hm1, hm2, hm3, hpre, hlook]

set_option maxRecDepth 4000 in
theorem gateway_forwards_without_required_check_witness :
    handleToolCall "godot_play_custom_scene" [] true false =
      (ToolOutcome.forwardedCall "play_custom_scene" [],
       [GatewayAction.registryLookup "play_custom_scene",
        GatewayAction.sendCmd "play_custom_scene" []]) :=
  gateway_forwards_without_required_check "godot_play_custom_scene" "play_custom_scene"
    { required := ["path"] } [] false (by decide) (by decide) (by decide) (by decide)
    (by decide) (by decide)

/-- One receive step can make a slot resolved only by storing the very
frame it is processing, under that frame's own id; every other slot keeps
its previous value. -/
theorem handleMessage_resolved_source {st : ClientState} {fr : Frame} {r : String} {f : Frame}
    (h : lookupFut (handleMessage st fr).1.futures r = some (FutureState.resolvedF f)) :
    lookupFut st.futures r = some (FutureState.resolvedF f) ∨ (f = fr ∧ fr.idVal = some r) := by
  simp only [handleMessage] at h
  by_cases hA : (fr.typ.getD "response") = "response" ∨ fr.hasIdKey = true
  · rw [if_pos hA] at h
    cases hid : fr.idVal with
    | none =>
      rw [hid] at h
      exact Or.inl h
    | some r2 =>
      rw [hid] at h
      dsimp only at h
      by_cases hcond : r2 ≠ "" ∧ r2 ∈ st.pendingKeys
      · rw [if_pos hcond] at h
        dsimp only at h
        by_cases hfut : lookupFut st.futures r2 = some FutureState.pending
        · rw [if_pos hfut] at h
          by_cases hr : r = r2
          · subst hr
            rw [lookupFut_setFut_eq hfut] at h
            simp only [Option.some.injEq, FutureState.resolvedF.injEq] at h
            exact Or.inr ⟨h.symm, by simp [hid]⟩
          · rw [lookupFut_setFut_ne hr] at h
            exact Or.inl h
        · rw [if_neg hfut] at h
          exact Or.inl h
      · rw [if_neg hcond] at h
        exact Or.inl h
  · rw [if_neg hA] at h
    exact Or.inl h

/-- Over any sequence of receive steps, a slot that can only have been
resolved with a frame bearing its own id keeps that property. -/
theorem applyFrames_resolved_matching (frames : List Frame) (st : ClientState) (r : String)
    (hinv : ∀ g, lookupFut st.futures r = some (FutureState.resolvedF g) → g.idVal = some r) :
    ∀ f, lookupFut (applyFrames st frames).futures r = some (FutureState.resolvedF f) →
      f.idVal = some r := by
  induction frames generalizing st with
  | nil => exact hinv
  | cons fr rest ih =>
    intro f hres
    refine ih ((handleMessage st fr).1) ?_ f hres
    intro g hg
    rcases handleMessage_resolved_source hg with hold | ⟨hgfr, hid⟩
    · exact hinv g hold
    · rw [hgfr]
      exact hid

/-- C1: request/response correlation in `_handle_message` (godot_client.py
lines 254-262).  First conjunct: a call whose slot was pending can only
ever be resolved with a response frame whose `id` equals that call's own
generated identifier, across any sequence of delivered frames.  Second
conjunct: a frame carrying an id whose slot is no longer in the pending
map (already resolved-and-popped, timed out, or never registered) is a
complete no-op — state unchanged, nothing dispatched, and no error since
`handleMessage` is total.  Third conjunct: a slot already resolved is
never overwritten, so each pending request is resolved at most once. -/
theorem client_correlation_at_most_once :
    (∀ (st : ClientState) (frames : List Frame) (r : String) (f : Frame),
        lookupFut st.futures r = some FutureState.pending →
        lookupFut (applyFrames st frames).futures r = some (FutureState.resolvedF f) →
        f.idVal = some r) ∧
    (∀ (st : ClientState) (fr : Frame) (r : String),
        fr.hasIdKey = true → fr.idVal = some r → r ∉ st.pendingKeys →
        handleMessage st fr = (st, [])) ∧
    (∀ (st : ClientState) (fr : Frame) (r : String) (g : Frame),
        lookupFut st.futures r = some (FutureState.resolvedF g) →
        lookupFut (handleMessage st fr).1.futures r = some (FutureState.resolvedF g)) := by
  refine ⟨?_, ?_, ?_⟩
  · intro st frames r f hp hres
    have hinv : ∀ g, lookupFut st.futures r = some (FutureState.resolvedF g) → g.idVal = some r := by
      intro g hg
      rw [hp] at hg
      exact absurd hg (by simp)
    exact applyFrames_resolved_matching frames st r hinv f hres
  · intro st fr r hkey hid hnot
    have hA : (fr.typ.getD "response") = "response" ∨ fr.hasIdKey = true := Or.inr hkey
    simp only [handleMessage]
    rw [if_pos hA, hid]
    dsimp only
    rw [if_neg (fun hc => hnot hc.2)]
  · intro st fr r g hg
    simp only [handleMessage]
    by_cases hA : (fr.typ.getD "response") = "response" ∨ fr.hasIdKey = true
    · rw [if_pos hA]
      cases hid : fr.idVal with
      | none => exact hg
      | some r2 =>
        dsimp only
        by_cases hcond : r2 ≠ "" ∧ r2 ∈ st.pendingKeys
        · rw [if_pos hcond]
          dsimp only
          by_cases hfut : lookupFut st.futures r2 = some FutureState.pending
          · rw [if_pos hfut]
            by_cases hr : r = r2
            · subst hr
              rw [hg] at hfut
              simp at hfut
            · rw [lookupFut_setFut_ne hr]
              exact hg
          · rw [if_neg hfut]
            exact hg
        · rw [if_neg hcond]
          exact hg
    · rw [if_neg hA]
      exact hg

theorem client_correlation_witness :
    Frame.idVal { hasIdKey := true, idVal := some "r1" } = some "r1" ∧
    handleMessage {} { hasIdKey := true, idVal := some "zz" } = ({}, []) :=
  ⟨client_correlation_at_most_once.1
      { connected := true, receiveTasks := 1, pendingKeys := ["r1"],
        futures := [("r1", FutureState.pending)] }
      [{ hasIdKey := true, idVal := some "r1" }] "r1"
      { hasIdKey := true, idVal := some "r1" } (by decide) (by decide),
   client_correlation_at_most_once.2.1 {} { hasIdKey := true, idVal := some "zz" } "zz"
      rfl rfl (by decide)⟩

/-- C8 counterexample: a frame of known event type `log_event` that also
carries an (unmatched) `id` key is swallowed by the response branch —
`"id" in data` puts it there — and is dropped: no handler dispatch occurs,
although the claim requires any frame without a matching pending id but
with a known event type to be dispatched. -/
theorem routing_precedence_cex :
    ({ hasIdKey := true, idVal := some "zzz", typ := some "log_event",
        dataField := 7 } : Frame).typ = some "log_event" ∧
    "zzz" ∉ ({} : ClientState).pendingKeys ∧
    handleMessage {}
        { hasIdKey := true, idVal := some "zzz", typ := some "log_event", dataField := 7 } =
      ({}, []) :=
  ⟨rfl, by decide, by decide⟩

/-- C8 (amended): actual routing precedence of `_handle_message`.  First
conjunct: a frame carrying an id key whose truthy id matches a pending
request is resolved as the response to exactly that request, whatever its
`type` — id presence wins over type interpretation.  Second conjunct: a
frame carrying an id key whose id does not match any pending request is
silently dropped, even when its `type` is a known event type.  Third
conjunct: only a frame without an id key and with a non-`"response"`
`type` reaches the event chain, whose dispatch is `eventEmits`.  Fourth
conjunct: `eventEmits` dispatches exactly the three known event types and
drops the rest.  Fifth conjunct: a frame with no id key and no type is
treated as a response and dropped. -/
theorem routing_precedence :
    (∀ (st : ClientState) (fr : Frame) (r : String),
        fr.hasIdKey = true → fr.idVal = some r → r ≠ "" → r ∈ st.pendingKeys →
        lookupFut st.futures r = some FutureState.pending →
        handleMessage st fr =
          ({ st with
             pendingKeys := removeKey st.pendingKeys r
             futures := setFut st.futures r (FutureState.resolvedF fr) }, [])) ∧
    (∀ (st : ClientState) (fr : Frame) (r : String),
        fr.hasIdKey = true → fr.idVal = some r → r ∉ st.pendingKeys →
        (handleMessage st fr).2 = []) ∧
    (∀ (st : ClientState) (fr : Frame) (k : String),
        fr.hasIdKey = false → fr.typ = some k → k ≠ "response" →
        handleMessage st fr = (st, eventEmits k fr)) ∧
    (∀ fr : Frame,
        eventEmits "log_event" fr = [("log", fr.dataField)] ∧
        eventEmits "game_connected" fr = [("game_connected", fr.dataField)] ∧
        eventEmits "game_disconnected" fr = [("game_disconnected", fr.dataField)] ∧
        ∀ k, k ≠ "log_event" → k ≠ "game_connected" → k ≠ "game_disconnected" →
          eventEmits k fr = []) ∧
    (∀ (st : ClientState) (fr : Frame),
        fr.hasIdKey = false → fr.typ = none → fr.idVal = none →
        handleMessage st fr = (st, [])) := by
  refine ⟨?_, ?_, ?_, ?_, ?_⟩
  · intro st fr r hkey hid hne hmem hfut
    have hA : (fr.typ.getD "response") = "response" ∨ fr.hasIdKey = true := Or.inr hkey
    simp only [handleMessage]
    rw [if_pos hA, hid]
    dsimp only
    rw [if_pos ⟨hne, hmem⟩, if_pos hfut]
  · intro st fr r hkey hid hnot
    have hA : (fr.typ.getD "response") = "response" ∨ fr.hasIdKey = true := Or.inr hkey
    simp only [handleMessage]
    rw [if_pos hA, hid]
    dsimp only
    rw [if_neg (fun hc => hnot hc.2)]
  · intro st fr k hkey htyp hkr
    have hA : ¬ ((fr.typ.getD "response") = "response" ∨ fr.hasIdKey = true) := by
      rw [htyp, hkey]
      dsimp only [Option.getD]
      rintro (h | h)
      · exact hkr h
      · exact Bool.noConfusion h
    simp only [handleMessage]
    rw [if_neg hA, htyp]
    rfl
  · intro fr
    refine ⟨rfl, rfl, rfl, ?_⟩
    intro k h1 h2 h3
    simp [eventEmits, h1, h2, h3]
  · intro st fr hkey htyp hid
    have hA : (fr.typ.getD "response") = "response" ∨ fr.hasIdKey = true := by
      rw [htyp]
      exact Or.inl rfl
    simp only [handleMessage]
    rw [if_pos hA, hid]

theorem routing_precedence_witness :
    handleMessage
        { connected := true, receiveTasks := 1, pendingKeys := ["q7"],
          futures := [("q7", FutureState.pending)] }
        { hasIdKey := true, idVal := some "q7", typ := some "log_event", dataField := 3 } =
      ({ connected := true, receiveTasks := 1, pendingKeys := [],
         futures := [("q7",
           FutureState.resolvedF
             { hasIdKey := true, idVal := some "q7", typ := some "log_event",
               dataField := 3 })] }, []) := by
  have h := routing_precedence.1
      { connected := true, receiveTasks := 1, pendingKeys := ["q7"],
        futures := [("q7", FutureState.pending)] }
      { hasIdKey := true, idVal := some "q7", typ := some "log_event", dataField := 3 }
      "q7" rfl rfl (by decide) (by decide) (by decide)
  rw [h]
  decide

/-- A slot pending in the dict at disconnect time is cancelled by the
sweep. -/
theorem cancelSweep_pending {l : List (String × FutureState)} {ks : List String} {r : String}
    (hm : r ∈ ks) (hl : lookupFut l r = some FutureState.pending) :
    lookupFut (cancelSweep ks l) r = some FutureState.cancelledF := by
  induction l with
  | nil => exact Option.noConfusion hl
  | cons p rest ih =>
    obtain ⟨k, f⟩ := p
    simp only [cancelSweep, List.map_cons]
    by_cases hr : r = k
    · subst hr
      simp only [lookupFut] at hl
      rw [if_pos trivial] at hl
      injection hl with hf
      subst hf
      rw [if_pos ⟨hm, rfl⟩]
      simp [lookupFut]
    · simp only [lookupFut, if_neg hr] at hl
      by_cases hc : k ∈ ks ∧ f = FutureState.pending
      · rw [if_pos hc]
        simp only [lookupFut, if_neg hr]
        exact ih hl
      · rw [if_neg hc]
        simp only [lookupFut, if_neg hr]
        exact ih hl

/-- A slot whose future is already done is left untouched by the sweep:
cancellation happens at most once. -/
theorem cancelSweep_done {l : List (String × FutureState)} {ks : List String} {r : String}
    {f : FutureState} (hl : lookupFut l r = some f) (hnp : f ≠ FutureState.pending) :
    lookupFut (cancelSweep ks l) r = some f := by
  induction l with
  | nil => exact Option.noConfusion hl
  | cons p rest ih =>
    obtain ⟨k, g⟩ := p
    simp only [cancelSweep, List.map_cons]
    by_cases hr : r = k
    · subst hr
      simp only [lookupFut] at hl
      rw [if_pos trivial] at hl
      injection hl with hf
      subst hf
      rw [if_neg fun hq => hnp hq.2]
      simp [lookupFut]
    · simp only [lookupFut, if_neg hr] at hl
      by_cases hc : k ∈ ks ∧ g = FutureState.pending
      · rw [if_pos hc]
        simp only [lookupFut, if_neg hr]
        exact ih hl
      · rw [if_neg hc]
        simp only [lookupFut, if_neg hr]
        exact ih hl

/-- C3 counterexample: disconnecting a session with one outstanding call
empties the pending map but cancels the caller's future, so the suspended
`send_command` ends in `asyncio.CancelledError` — not in the
`{"success": False, "error": {"code": "CONNECTION_CLOSED", ...}}` result
the claim promises. -/
theorem disconnect_connection_closed_cex :
    (GodotClient.disconnect
        { connected := true, receiveTasks := 1, pendingKeys := ["r1"],
          futures := [("r1", FutureState.pending)] }).pendingKeys = [] ∧
    lookupFut
        (GodotClient.disconnect
          { connected := true, receiveTasks := 1, pendingKeys := ["r1"],
            futures := [("r1", FutureState.pending)] }).futures "r1" =
      some FutureState.cancelledF ∧
    awaitFutureResult FutureState.cancelledF = CallResult.cancelledError ∧
    CallResult.cancelledError ≠ connectionClosedResult := by
  decide

/-- C3 (amended): `disconnect` (godot_client.py lines 117-142) leaves the
pending map empty and the session disconnected; every future still pending
at that moment is cancelled — exactly once, since the sweep only touches
futures with `not future.done()` and leaves already-settled futures
untouched — and the caller suspended on such a future observes a
cancellation (`asyncio.CancelledError` escapes `send_command`) rather than
a `CONNECTION_CLOSED` error result. -/
theorem disconnect_cancels_pending (st : ClientState) :
    (GodotClient.disconnect st).pendingKeys = [] ∧
    (GodotClient.disconnect st).connected = false ∧
    (∀ r, r ∈ st.pendingKeys → lookupFut st.futures r = some FutureState.pending →
        lookupFut (GodotClient.disconnect st).futures r = some FutureState.cancelledF ∧
        awaitFutureResult FutureState.cancelledF = CallResult.cancelledError) ∧
    (∀ r f, lookupFut st.futures r = some f → f.isDone = true →
        lookupFut (GodotClient.disconnect st).futures r = some f) := by
  refine ⟨rfl, rfl, ?_, ?_⟩
  · intro r hmem hlook
    exact ⟨cancelSweep_pending hmem hlook, rfl⟩
  · intro r f hlook hdone
    have hnp : f ≠ FutureState.pending := by
      intro he
      rw [he] at hdone
      exact Bool.noConfusion hdone
    exact cancelSweep_done hlook hnp

theorem disconnect_cancels_pending_witness :
    lookupFut
        (GodotClient.disconnect
          { connected := true, receiveTasks := 1, pendingKeys := ["k1", "k2"],
            futures := [("k1", FutureState.pending), ("k2", FutureState.pending)] }).futures
        "k2" = some FutureState.cancelledF :=
  ((disconnect_cancels_pending
      { connected := true, receiveTasks := 1, pendingKeys := ["k1", "k2"],
        futures := [("k1", FutureState.pending), ("k2", FutureState.pending)] }).2.2.1
    "k2" (by decide) (by decide)).1
